import Mathlib

/-!
Shallow embedding of the ADPF power hint session controller from
src/aidl/power-libperfmgr/PowerHintSession.h and PowerHintSession.cpp.

Modelling conventions:
* C++ int64_t and int values are modelled as Int: signed overflow is
  undefined behaviour in C++, so every defined execution agrees with the
  unbounded integers.
* C++ double values (the PID gains and the scale factors of the profile) are
  modelled as rationals; a cast of a double to an integer type truncates
  toward zero, modelled by truncQ.
* Calls into the vote arbiter (PowerSessionManager) and into the hint
  manager are external side effects with no bearing on session-local state;
  they are not modelled, except that setThreads also returns the thread list
  it forwards to the manager.
* The steady clock is modelled by passing the current time as an argument;
  tracing (ATRACE, ALOG) has no state effect and is dropped.
-/

namespace Adpf

/-- Return status of a session operation, modelling the three ndk status
values actually produced by PowerHintSession.cpp: ok, EX_ILLEGAL_STATE and
EX_ILLEGAL_ARGUMENT. -/
inductive Status
  | Ok
  | IllegalState
  | IllegalArgument
deriving DecidableEq

/-- Truncation of a rational toward zero, modelling the C++ conversion of a
double value to an integer type. -/
def truncQ (q : ℚ) : Int := if 0 ≤ q then ⌊q⌋ else ⌈q⌉

/-- Conversion from nanoseconds to 100-microsecond units, the helper
ns_to_100us of PowerHintSession.cpp (line 53): 64-bit integer division,
which in C++ truncates toward zero. -/
def ns_to_100us (ns : Int) : Int := Int.tdiv ns 100000

/-- Reduction of a signed value modulo 2 to the 32 into the uint32 range,
as the C++ static cast to uint32_t. -/
def toU32 (x : Int) : Int := x % 4294967296

/-- Reinterpretation of a uint32 value as a signed int, as the C++
conversion to int: values of 2 to the 31 and above wrap to negatives. -/
def ofU32 (u : Int) : Int := if u < 2147483648 then u else u - 4294967296

/-- The slice of the perfmgr AdpfConfig profile that PowerHintSession.cpp
reads. The getPidIHighDivI and getPidILowDivI fields model the getters of
those names (configured integral clamp limits divided by the integral gain,
computed by external perfmgr code). Gains and factors are C++ doubles,
modelled as rationals; the window sizes are uint64 counts; the uclamp
fields hold uint32 values. -/
structure AdpfConfig where
  mPidPo : ℚ
  mPidPu : ℚ
  mPidI : ℚ
  mPidDo : ℚ
  mPidDu : ℚ
  mSamplingWindowP : ℕ
  mSamplingWindowI : ℕ
  mSamplingWindowD : ℕ
  getPidIHighDivI : Int
  getPidILowDivI : Int
  mUclampMinHigh : Int
  mUclampMinLow : Int
  mUclampMinInit : Int
  mStaleTimeFactor : ℚ
  mTargetTimeFactor : ℚ
  mPidOn : Bool

/-- One reported work duration (aidl WorkDuration); only durationNanos is
read by this controller. -/
structure WorkDuration where
  timeStampNanos : Int
  durationNanos : Int
deriving DecidableEq

/-- The AppHintDesc record of PowerHintSession.h: per-session mutable state
driving the PID computation. targetNs is the stored target in nanoseconds,
update_count the number of accepted reports (uint64, modelled as Nat). -/
structure AppHintDesc where
  sessionId : Int
  tgid : Int
  uid : Int
  targetNs : Int
  pidSetPoint : Int
  is_active : Bool
  update_count : Nat
  integral_error : Int
  previous_error : Int
deriving DecidableEq

/-- The AppHintDesc constructor (PowerHintSession.cpp lines 119 to 129):
set point 0, active, zero counters and accumulators. -/
def AppHintDesc.mkDesc (sessionId tgid uid pTargetNs : Int) : AppHintDesc :=
  { sessionId := sessionId, tgid := tgid, uid := uid, targetNs := pTargetNs,
    pidSetPoint := 0, is_active := true, update_count := 0,
    integral_error := 0, previous_error := 0 }

/-- The aidl SessionHint enumeration as received over the wire: the four
values the switch in sendHint recognizes, plus a catch-all for any other
integer value. -/
inductive SessionHint
  | CPU_LOAD_UP
  | CPU_LOAD_DOWN
  | CPU_LOAD_RESET
  | CPU_LOAD_RESUME
  | UNKNOWN (v : Int)
deriving DecidableEq

/-- Integer value of a SessionHint, as the C++ static cast of the enum. -/
def SessionHint.toInt : SessionHint → Int
  | .CPU_LOAD_UP => 0
  | .CPU_LOAD_DOWN => 1
  | .CPU_LOAD_RESET => 2
  | .CPU_LOAD_RESUME => 3
  | .UNKNOWN v => v

/-- The aidl SessionMode enumeration as received over the wire: the single
value the switch in setMode recognizes, plus a catch-all. -/
inductive SessionMode
  | POWER_EFFICIENCY
  | UNKNOWN_MODE (v : Int)
deriving DecidableEq

/-- Session state of PowerHintSession.h: the descriptor plus the one-shot
closed flag, the last-updated timestamp, the mode flag array (which has a
single recognized slot, POWER_EFFICIENCY) and the last hint sent. The
lazily populated supported-hint cache only memoizes queries to the external
hint manager and is not modelled. -/
structure PowerHintSession where
  mDescriptor : AppHintDesc
  mSessionClosed : Bool
  mLastUpdatedTime : Int
  mModes : Bool
  mLastHintSent : Int
deriving DecidableEq

/-- The PowerHintSession constructor (lines 131 to 155): fresh descriptor,
open session, last-updated stamped now; the two init votes are external. -/
def PowerHintSession.create (tgid uid durationNs sessionId now : Int) : PowerHintSession :=
  { mDescriptor := AppHintDesc.mkDesc sessionId tgid uid durationNs,
    mSessionClosed := false, mLastUpdatedTime := now,
    mModes := false, mLastHintSent := -1 }

/-- updatePidSetPoint (lines 171 to 181): stores the new set point in the
descriptor; the vote push to the manager is external and the updateVote
flag only controls that push. -/
def PowerHintSession.updatePidSetPoint (s : PowerHintSession) (pidSetPoint : Int)
    (_updateVote : Bool) : PowerHintSession :=
  { s with mDescriptor := { s.mDescriptor with pidSetPoint := pidSetPoint } }

/-- Start index of one sampling window, from lines 70 to 75 of
convertWorkDurationToBoostByPid: zero when the configured window size is
zero or exceeds the batch length, otherwise length minus window size. -/
def windowStart (w n : ℕ) : ℕ := if w = 0 ∨ n < w then 0 else n - w

/-- Running state of the PID scan loop (lines 77 to 99): the proportional
and derivative accumulators local to one call, and the two persistent
descriptor accumulators. -/
structure PidState where
  err_sum : Int
  derivative_sum : Int
  integral_error : Int
  previous_error : Int
deriving DecidableEq

/-- One iteration of the PID scan loop (lines 79 to 99) at index i: the
error is the actual minus the target in 100-microsecond units; the
derivative, proportional and integral accumulators update when the index
lies in their windows; the integral accumulator is clamped from above by
getPidIHighDivI and from below by getPidILowDivI. -/
def pidStep (cfg : AdpfConfig) (targetDurationNanos : Int)
    (p_start i_start d_start i : ℕ) (d : WorkDuration) (st : PidState) : PidState :=
  let dt := ns_to_100us targetDurationNanos
  let error := ns_to_100us (d.durationNanos - targetDurationNanos)
  let derivative_sum :=
    if d_start ≤ i then st.derivative_sum + (error - st.previous_error)
    else st.derivative_sum
  let err_sum := if p_start ≤ i then st.err_sum + error else st.err_sum
  let integral_error :=
    if i_start ≤ i then
      max cfg.getPidILowDivI (min cfg.getPidIHighDivI (st.integral_error + error * dt))
    else st.integral_error
  { err_sum := err_sum, derivative_sum := derivative_sum,
    integral_error := integral_error, previous_error := error }

/-- The PID scan loop over the reported durations, indices counted from the
loop entry point. -/
def pidLoop (cfg : AdpfConfig) (targetDurationNanos : Int)
    (p_start i_start d_start : ℕ) : ℕ → List WorkDuration → PidState → PidState
  | _, [], st => st
  | i, d :: rest, st =>
      pidLoop cfg targetDurationNanos p_start i_start d_start (i + 1) rest
        (pidStep cfg targetDurationNanos p_start i_start d_start i d st)

/-- convertWorkDurationToBoostByPid (lines 59 to 117): runs the PID scan
from the smallest window start, then combines the proportional, integral
and derivative outputs; the gain multiplications and the divisions of pOut
and dOut happen in double arithmetic and the results truncate to int64.
Returns the boost output together with the updated descriptor (the loop
mutates integral_error and previous_error through references). When dt is
zero (stored target below 100000 ns) the C++ source divides by zero,
which is undefined behaviour; rational division is total here, so any
theorem asserting a successful outcome carries a hypothesis keeping the
stored target at or above 100000 ns. -/
def convertWorkDurationToBoostByPid (cfg : AdpfConfig) (desc : AppHintDesc)
    (actualDurations : List WorkDuration) : Int × AppHintDesc :=
  let targetDurationNanos := desc.targetNs
  let length := actualDurations.length
  let p_start := windowStart cfg.mSamplingWindowP length
  let i_start := windowStart cfg.mSamplingWindowI length
  let d_start := windowStart cfg.mSamplingWindowD length
  let dt := ns_to_100us targetDurationNanos
  let start := min p_start (min i_start d_start)
  let st := pidLoop cfg targetDurationNanos p_start i_start d_start start
    (actualDurations.drop start)
    { err_sum := 0, derivative_sum := 0,
      integral_error := desc.integral_error, previous_error := desc.previous_error }
  let pOut := truncQ ((if 0 < st.err_sum then cfg.mPidPo else cfg.mPidPu) *
    (st.err_sum : ℚ) / ((length : ℚ) - (p_start : ℚ)))
  let iOut := truncQ (cfg.mPidI * (st.integral_error : ℚ))
  let dOut := truncQ ((if 0 < st.derivative_sum then cfg.mPidDo else cfg.mPidDu) *
    (st.derivative_sum : ℚ) / (dt : ℚ) / ((length : ℚ) - (d_start : ℚ)))
  (pOut + iOut + dOut,
   { desc with integral_error := st.integral_error, previous_error := st.previous_error })

/-- pause (lines 199 to 212): illegal state when closed or already
inactive; otherwise clears the active flag (the arbiter pause call is
external). -/
def PowerHintSession.pause (s : PowerHintSession) : Status × PowerHintSession :=
  if s.mSessionClosed then (.IllegalState, s)
  else if !s.mDescriptor.is_active then (.IllegalState, s)
  else (.Ok, { s with mDescriptor := { s.mDescriptor with is_active := false } })

/-- resume (lines 214 to 227): illegal state when closed or already
active; otherwise sets the active flag (the arbiter resume call is
external). -/
def PowerHintSession.resume (s : PowerHintSession) : Status × PowerHintSession :=
  if s.mSessionClosed then (.IllegalState, s)
  else if s.mDescriptor.is_active then (.IllegalState, s)
  else (.Ok, { s with mDescriptor := { s.mDescriptor with is_active := true } })

/-- close (lines 229 to 239): the compare-and-exchange on the closed flag
fails with illegal state when already closed; otherwise marks the session
closed and inactive (removal from the manager is external). -/
def PowerHintSession.close (s : PowerHintSession) : Status × PowerHintSession :=
  if s.mSessionClosed then (.IllegalState, s)
  else (.Ok, { s with mSessionClosed := true,
                      mDescriptor := { s.mDescriptor with is_active := false } })

/-- updateTargetWorkDuration (lines 241 to 259): illegal state when closed,
illegal argument when the requested duration is not positive; otherwise
scales the duration by the profile target-time factor in double arithmetic,
truncates back to int64 and stores it (the validity-window push to the
arbiter is external). -/
def PowerHintSession.updateTargetWorkDuration (cfg : AdpfConfig) (s : PowerHintSession)
    (targetDurationNanos : Int) : Status × PowerHintSession :=
  if s.mSessionClosed then (.IllegalState, s)
  else if targetDurationNanos ≤ 0 then (.IllegalArgument, s)
  else
    let scaled := truncQ ((targetDurationNanos : ℚ) * cfg.mTargetTimeFactor)
    (.Ok, { s with mDescriptor := { s.mDescriptor with targetNs := scaled } })

/-- reportActualWorkDuration (lines 261 to 315): guards in source order
(closed, zero stored target, empty batch, inactive), then increments the
update count and refreshes the timestamp; with PID disabled the set point
jumps to the profile high bound, otherwise the PID output is added to the
set point and clamped between the profile low and high bounds. The
first-frame hint, universal boost recomputation and disableBoosts calls
are external. -/
def PowerHintSession.reportActualWorkDuration (cfg : AdpfConfig) (s : PowerHintSession)
    (actualDurations : List WorkDuration) (now : Int) : Status × PowerHintSession :=
  if s.mSessionClosed then (.IllegalState, s)
  else if s.mDescriptor.targetNs = 0 then (.IllegalState, s)
  else if actualDurations.isEmpty then (.IllegalArgument, s)
  else if !s.mDescriptor.is_active then (.IllegalState, s)
  else
    let d1 := { s.mDescriptor with update_count := s.mDescriptor.update_count + 1 }
    let s1 := { s with mDescriptor := d1, mLastUpdatedTime := now }
    if !cfg.mPidOn then
      (.Ok, s1.updatePidSetPoint cfg.mUclampMinHigh true)
    else
      let r := convertWorkDurationToBoostByPid cfg d1 actualDurations
      let next_min := max cfg.mUclampMinLow
        (min cfg.mUclampMinHigh (d1.pidSetPoint + r.1))
      (.Ok, { s1 with mDescriptor := { r.2 with pidSetPoint := next_min } })

/-- sendHint (lines 317 to 364): illegal state when closed or when no
target is stored; the recognized hints adjust the set point (UP keeps it,
DOWN takes the profile low bound, RESET takes the maximum of the init
bound and the set point in uint32 arithmetic, RESUME only re-votes) and
refresh the timestamp and the last-hint record; any other value is an
illegal argument. Vote pushes and the platform hint forward are
external. -/
def PowerHintSession.sendHint (cfg : AdpfConfig) (s : PowerHintSession)
    (hint : SessionHint) (now : Int) : Status × PowerHintSession :=
  if s.mSessionClosed then (.IllegalState, s)
  else if s.mDescriptor.targetNs = 0 then (.IllegalState, s)
  else
    match hint with
    | .CPU_LOAD_UP =>
        (.Ok, { s.updatePidSetPoint s.mDescriptor.pidSetPoint true with
                mLastUpdatedTime := now, mLastHintSent := SessionHint.toInt hint })
    | .CPU_LOAD_DOWN =>
        (.Ok, { s.updatePidSetPoint cfg.mUclampMinLow true with
                mLastUpdatedTime := now, mLastHintSent := SessionHint.toInt hint })
    | .CPU_LOAD_RESET =>
        (.Ok, { s.updatePidSetPoint
                  (ofU32 (max cfg.mUclampMinInit (toU32 s.mDescriptor.pidSetPoint))) false with
                mLastUpdatedTime := now, mLastHintSent := SessionHint.toInt hint })
    | .CPU_LOAD_RESUME =>
        (.Ok, { s with mLastUpdatedTime := now, mLastHintSent := SessionHint.toInt hint })
    | .UNKNOWN _ => (.IllegalArgument, s)

/-- setMode (lines 366 to 384): illegal state when closed; only
POWER_EFFICIENCY is recognized (any other value is an illegal argument);
an accepted call records the flag and refreshes the timestamp. -/
def PowerHintSession.setMode (s : PowerHintSession) (mode : SessionMode)
    (enabled : Bool) (now : Int) : Status × PowerHintSession :=
  if s.mSessionClosed then (.IllegalState, s)
  else
    match mode with
    | .POWER_EFFICIENCY => (.Ok, { s with mModes := enabled, mLastUpdatedTime := now })
    | .UNKNOWN_MODE _ => (.IllegalArgument, s)

/-- setThreads (lines 386 to 400): illegal state when closed, illegal
argument on an empty list; otherwise forwards the thread list to the
manager (returned as the third component) and resets the set point to the
profile init bound. -/
def PowerHintSession.setThreads (cfg : AdpfConfig) (s : PowerHintSession)
    (threadIds : List Int) : Status × PowerHintSession × Option (List Int) :=
  if s.mSessionClosed then (.IllegalState, s, none)
  else if threadIds.isEmpty then (.IllegalArgument, s, none)
  else (.Ok, s.updatePidSetPoint cfg.mUclampMinInit true, some threadIds)

/-! Concrete profile and session values used by the counterexamples and
witnesses below. -/

/-- A profile with all sampling windows zero, unit gains and PID control
enabled. -/
def cfgUnit : AdpfConfig :=
  { mPidPo := 1, mPidPu := 1, mPidI := 1, mPidDo := 1, mPidDu := 1,
    mSamplingWindowP := 0, mSamplingWindowI := 0, mSamplingWindowD := 0,
    getPidIHighDivI := 10, getPidILowDivI := -10,
    mUclampMinHigh := 200, mUclampMinLow := 0, mUclampMinInit := 50,
    mStaleTimeFactor := 10, mTargetTimeFactor := 1, mPidOn := true }

/-- The profile cfgUnit with a target-time factor of one half. -/
def cfgHalf : AdpfConfig := { cfgUnit with mTargetTimeFactor := 1 / 2 }

/-- A freshly created session: open, active, stored target one
millisecond, set point and accumulators zero. -/
def sOpen : PowerHintSession := PowerHintSession.create 100 10001 1000000 1 0

/-- The session sOpen after its one-shot closed flag has been taken. -/
def sClosed : PowerHintSession := { sOpen with mSessionClosed := true }

/-- A session whose stored target is 99999 ns: positive, so it passes the
zero-target guard, but below one 100-microsecond unit. -/
def sTiny : PowerHintSession := PowerHintSession.create 100 10001 99999 2 0

/-- The profile cfgUnit with both derived integral clamp bounds equal to 3
and a positive low uclamp bound. -/
def cfgSkew : AdpfConfig :=
  { cfgUnit with getPidIHighDivI := 3, getPidILowDivI := 3, mUclampMinLow := 100 }

/-! Helper lemmas shared by the claim theorems. -/

/-- Truncation of zero is zero. -/
@[simp] lemma truncQ_zero : truncQ 0 = 0 := by norm_num [truncQ]

/-- A window size of zero selects the whole batch. -/
@[simp] lemma windowStart_zero (n : ℕ) : windowStart 0 n = 0 := by simp [windowStart]

/-- A window start index never reaches the last element of a non-empty
batch. -/
lemma windowStart_le (w n : ℕ) (hn : 1 ≤ n) : windowStart w n ≤ n - 1 := by
  unfold windowStart
  split_ifs <;> omega

/-- Shape of a successful report with PID control on: the update count
increments, the timestamp refreshes, the descriptor takes the accumulator
state left by the PID scan, and the set point moves by the PID output
clamped between the profile uclamp bounds. -/
lemma report_ok_eq (cfg : AdpfConfig) (s : PowerHintSession)
    (ds : List WorkDuration) (now : Int)
    (h1 : s.mSessionClosed = false) (h2 : s.mDescriptor.targetNs ≠ 0)
    (h3 : ds.isEmpty = false) (h4 : s.mDescriptor.is_active = true)
    (h5 : cfg.mPidOn = true) :
    s.reportActualWorkDuration cfg ds now =
      (Status.Ok,
       { s with
         mLastUpdatedTime := now,
         mDescriptor :=
           { (convertWorkDurationToBoostByPid cfg
                { s.mDescriptor with update_count := s.mDescriptor.update_count + 1 } ds).2 with
             pidSetPoint := max cfg.mUclampMinLow (min cfg.mUclampMinHigh
               (s.mDescriptor.pidSetPoint +
                (convertWorkDurationToBoostByPid cfg
                   { s.mDescriptor with update_count := s.mDescriptor.update_count + 1 } ds).1)) } }) := by
  simp only [PowerHintSession.reportActualWorkDuration]
  rw [if_neg (by simp [h1]), if_neg h2, if_neg (by simp [h3]), if_neg (by simp [h4]),
    if_neg (by simp [h5])]

/-- The integral accumulator left by the PID scan over a batch whose last
index lies in the integral window is clamped between the profile integral
bounds, because the clamp is the last thing done to it. -/
lemma pidLoop_integral_clamped (cfg : AdpfConfig) (t : Int) (pS iS dS : ℕ)
    (hlh : cfg.getPidILowDivI ≤ cfg.getPidIHighDivI) :
    ∀ (l : List WorkDuration) (i : ℕ) (st : PidState), l ≠ [] →
      iS ≤ i + l.length - 1 →
      cfg.getPidILowDivI ≤ (pidLoop cfg t pS iS dS i l st).integral_error ∧
      (pidLoop cfg t pS iS dS i l st).integral_error ≤ cfg.getPidIHighDivI := by
  intro l
  induction l with
  | nil => intro i st h _; exact absurd rfl h
  | cons d rest ih =>
    intro i st _ hlast
    cases rest with
    | nil =>
      have hi : iS ≤ i := by simp at hlast; omega
      simp only [pidLoop]
      unfold pidStep
      simp only [if_pos hi]
      exact ⟨le_max_left _ _, max_le hlh (min_le_left _ _)⟩
    | cons e rest2 =>
      simp only [pidLoop]
      apply ih
      · simp
      · simp only [List.length_cons] at hlast ⊢
        omega

/-- The descriptor returned by the PID conversion on a non-empty batch has
its integral accumulator clamped between the profile integral bounds. -/
lemma convert_integral_clamped (cfg : AdpfConfig) (desc : AppHintDesc)
    (ds : List WorkDuration) (hds : ds ≠ [])
    (hlh : cfg.getPidILowDivI ≤ cfg.getPidIHighDivI) :
    cfg.getPidILowDivI ≤ (convertWorkDurationToBoostByPid cfg desc ds).2.integral_error ∧
    (convertWorkDurationToBoostByPid cfg desc ds).2.integral_error ≤ cfg.getPidIHighDivI := by
  have hn : 1 ≤ ds.length := List.length_pos.mpr hds
  have hiS := windowStart_le cfg.mSamplingWindowI ds.length hn
  have hstart : min (windowStart cfg.mSamplingWindowP ds.length)
      (min (windowStart cfg.mSamplingWindowI ds.length)
        (windowStart cfg.mSamplingWindowD ds.length)) ≤ ds.length - 1 := by
    have h1 := min_le_right (windowStart cfg.mSamplingWindowP ds.length)
      (min (windowStart cfg.mSamplingWindowI ds.length)
        (windowStart cfg.mSamplingWindowD ds.length))
    have h2 := min_le_left (windowStart cfg.mSamplingWindowI ds.length)
      (windowStart cfg.mSamplingWindowD ds.length)
    omega
  simp only [convertWorkDurationToBoostByPid]
  apply pidLoop_integral_clamped cfg _ _ _ _ hlh
  · intro hnil
    rw [List.drop_eq_nil_iff] at hnil
    omega
  · rw [List.length_drop]
    omega

/-- A single on-target sample with zero accumulators, full windows and
unit gains produces zero boost and leaves both accumulators at zero,
provided the integral clamp range contains zero. -/
lemma convert_single_on_target (cfg : AdpfConfig) (desc : AppHintDesc) (ts : Int)
    (hwp : cfg.mSamplingWindowP = 0) (hwi : cfg.mSamplingWindowI = 0)
    (hwd : cfg.mSamplingWindowD = 0)
    (hpu : cfg.mPidPu = 1) (hdu : cfg.mPidDu = 1)
    (hie : desc.integral_error = 0) (hpe : desc.previous_error = 0)
    (hlow : cfg.getPidILowDivI ≤ 0) (hhigh : 0 ≤ cfg.getPidIHighDivI) :
    convertWorkDurationToBoostByPid cfg desc
      [{ timeStampNanos := ts, durationNanos := desc.targetNs }] =
      (0, { desc with integral_error := 0, previous_error := 0 }) := by
  have hstep : pidStep cfg desc.targetNs 0 0 0 0
      { timeStampNanos := ts, durationNanos := desc.targetNs }
      { err_sum := 0, derivative_sum := 0, integral_error := desc.integral_error,
        previous_error := desc.previous_error } =
      { err_sum := 0, derivative_sum := 0, integral_error := 0, previous_error := 0 } := by
    unfold pidStep
    simp [hie, hpe, ns_to_100us, Int.zero_tdiv, min_eq_right hhigh, max_eq_right hlow]
  simp only [convertWorkDurationToBoostByPid, List.length_cons, List.length_nil,
    Nat.zero_add, hwp, hwi, hwd, windowStart_zero, min_self, List.drop_zero, pidLoop,
    hstep]
  norm_num [hpu, hdu, truncQ]

/-! Theorems about the claims. -/

/-- C7: for every non-empty batch of length n and every window size W, the
window start index computed by the code equals 0 when W is 0 and
max 0 (n - W) otherwise. -/
theorem c7_window_start_correct (w n : ℕ) (_hn : 1 ≤ n) :
    (windowStart w n : Int) = if w = 0 then 0 else max 0 ((n : Int) - (w : Int)) := by
  unfold windowStart
  split_ifs <;> push_cast <;> omega

/-- Witness for C7 at window size 3 and batch length 5. -/
theorem c7_window_start_correct_witness :
    1 ≤ 5 ∧
      (windowStart 3 5 : Int) = if (3 : ℕ) = 0 then 0 else max 0 ((5 : Int) - (3 : Int)) :=
  ⟨by decide, c7_window_start_correct 3 5 (by decide)⟩

/-- C6: on a non-closed session, pause succeeds exactly from the active
state and resume exactly from the paused state, each failing with illegal
state otherwise; pause then resume then pause succeeds at every step from
the active state, while a second pause or a second resume fails. -/
theorem c6_pause_resume_state_machine (s : PowerHintSession)
    (hopen : s.mSessionClosed = false) :
    ((s.pause.1 = Status.Ok ↔ s.mDescriptor.is_active = true) ∧
      (s.mDescriptor.is_active = false → s.pause.1 = Status.IllegalState)) ∧
    ((s.resume.1 = Status.Ok ↔ s.mDescriptor.is_active = false) ∧
      (s.mDescriptor.is_active = true → s.resume.1 = Status.IllegalState)) ∧
    (s.mDescriptor.is_active = true →
      s.pause.1 = Status.Ok ∧ s.pause.2.resume.1 = Status.Ok ∧
      s.pause.2.resume.2.pause.1 = Status.Ok ∧
      s.pause.2.pause.1 = Status.IllegalState) ∧
    (s.mDescriptor.is_active = false →
      s.resume.1 = Status.Ok ∧ s.resume.2.resume.1 = Status.IllegalState) := by
  cases hact : s.mDescriptor.is_active <;>
    simp [PowerHintSession.pause, PowerHintSession.resume, hopen, hact]

/-- Witness for C6 at a concrete open active session. -/
theorem c6_pause_resume_state_machine_witness :
    sOpen.mSessionClosed = false ∧
    (sOpen.mDescriptor.is_active = true →
      sOpen.pause.1 = Status.Ok ∧ sOpen.pause.2.resume.1 = Status.Ok ∧
      sOpen.pause.2.resume.2.pause.1 = Status.Ok ∧
      sOpen.pause.2.pause.1 = Status.IllegalState) :=
  ⟨by decide, (c6_pause_resume_state_machine sOpen (by decide)).2.2.1⟩

/-- C5: close succeeds exactly once (an open session closes with ok and a
closed session fails with illegal state), and on a closed session every
mutating operation fails with illegal state while the session stays
closed. -/
theorem c5_close_once_then_all_fail (cfg : AdpfConfig) (s : PowerHintSession)
    (t now : Int) (ds : List WorkDuration) (hint : SessionHint) (mode : SessionMode)
    (enabled : Bool) (tids : List Int) :
    (s.mSessionClosed = false →
      s.close.1 = Status.Ok ∧ s.close.2.mSessionClosed = true ∧
      s.close.2.close.1 = Status.IllegalState) ∧
    (s.mSessionClosed = true →
      s.close.1 = Status.IllegalState ∧
      s.pause.1 = Status.IllegalState ∧ s.pause.2.mSessionClosed = true ∧
      s.resume.1 = Status.IllegalState ∧ s.resume.2.mSessionClosed = true ∧
      (s.updateTargetWorkDuration cfg t).1 = Status.IllegalState ∧
      (s.updateTargetWorkDuration cfg t).2.mSessionClosed = true ∧
      (s.reportActualWorkDuration cfg ds now).1 = Status.IllegalState ∧
      (s.reportActualWorkDuration cfg ds now).2.mSessionClosed = true ∧
      (s.sendHint cfg hint now).1 = Status.IllegalState ∧
      (s.sendHint cfg hint now).2.mSessionClosed = true ∧
      (s.setMode mode enabled now).1 = Status.IllegalState ∧
      (s.setMode mode enabled now).2.mSessionClosed = true ∧
      (s.setThreads cfg tids).1 = Status.IllegalState ∧
      (s.setThreads cfg tids).2.1.mSessionClosed = true) := by
  cases hcl : s.mSessionClosed <;>
    simp [PowerHintSession.close, PowerHintSession.pause, PowerHintSession.resume,
      PowerHintSession.updateTargetWorkDuration, PowerHintSession.reportActualWorkDuration,
      PowerHintSession.sendHint, PowerHintSession.setMode, PowerHintSession.setThreads,
      hcl]

/-- Witness for C5 at a concrete open session and a concrete closed
session. -/
theorem c5_close_once_then_all_fail_witness :
    (sOpen.mSessionClosed = false →
      sOpen.close.1 = Status.Ok ∧ sOpen.close.2.mSessionClosed = true ∧
      sOpen.close.2.close.1 = Status.IllegalState) ∧
    (sClosed.mSessionClosed = true → sClosed.close.1 = Status.IllegalState ∧
      sClosed.pause.1 = Status.IllegalState ∧ sClosed.pause.2.mSessionClosed = true ∧
      sClosed.resume.1 = Status.IllegalState ∧ sClosed.resume.2.mSessionClosed = true ∧
      (sClosed.updateTargetWorkDuration cfgUnit 1).1 = Status.IllegalState ∧
      (sClosed.updateTargetWorkDuration cfgUnit 1).2.mSessionClosed = true ∧
      (sClosed.reportActualWorkDuration cfgUnit [] 0).1 = Status.IllegalState ∧
      (sClosed.reportActualWorkDuration cfgUnit [] 0).2.mSessionClosed = true ∧
      (sClosed.sendHint cfgUnit .CPU_LOAD_UP 0).1 = Status.IllegalState ∧
      (sClosed.sendHint cfgUnit .CPU_LOAD_UP 0).2.mSessionClosed = true ∧
      (sClosed.setMode .POWER_EFFICIENCY true 0).1 = Status.IllegalState ∧
      (sClosed.setMode .POWER_EFFICIENCY true 0).2.mSessionClosed = true ∧
      (sClosed.setThreads cfgUnit [7]).1 = Status.IllegalState ∧
      (sClosed.setThreads cfgUnit [7]).2.1.mSessionClosed = true) :=
  ⟨(c5_close_once_then_all_fail cfgUnit sOpen 1 0 [] .CPU_LOAD_UP .POWER_EFFICIENCY
      true [7]).1,
   (c5_close_once_then_all_fail cfgUnit sClosed 1 0 [] .CPU_LOAD_UP .POWER_EFFICIENCY
      true [7]).2⟩

/-- C9: setThreads fails with illegal state on a closed session and with
illegal argument on an empty list; on a non-closed session with a
non-empty list it succeeds, forwards exactly the given thread list to the
manager and resets the set point to the profile init bound. -/
theorem c9_set_threads (cfg : AdpfConfig) (s : PowerHintSession) (tids : List Int) :
    (s.mSessionClosed = true → (s.setThreads cfg tids).1 = Status.IllegalState) ∧
    (s.mSessionClosed = false → tids = [] →
      (s.setThreads cfg tids).1 = Status.IllegalArgument) ∧
    (s.mSessionClosed = false → tids ≠ [] →
      (s.setThreads cfg tids).1 = Status.Ok ∧
      (s.setThreads cfg tids).2.2 = some tids ∧
      (s.setThreads cfg tids).2.1.mDescriptor.pidSetPoint = cfg.mUclampMinInit) := by
  cases hcl : s.mSessionClosed <;> cases tids <;>
    simp [PowerHintSession.setThreads, PowerHintSession.updatePidSetPoint, hcl]

/-- Witness for C9 at a concrete open session with a singleton thread
list. -/
theorem c9_set_threads_witness :
    sOpen.mSessionClosed = false ∧ ([7] : List Int) ≠ [] ∧
    ((sOpen.setThreads cfgUnit [7]).1 = Status.Ok ∧
      (sOpen.setThreads cfgUnit [7]).2.2 = some [7] ∧
      (sOpen.setThreads cfgUnit [7]).2.1.mDescriptor.pidSetPoint = cfgUnit.mUclampMinInit) :=
  ⟨by decide, by decide,
   (c9_set_threads cfgUnit sOpen [7]).2.2 (by decide) (by decide)⟩

/-- C10: whenever one of the mutating operations returns an error status,
the session state it returns is exactly the state it was given: the error
paths of every operation return before any field is written. -/
theorem c10_error_is_atomic (cfg : AdpfConfig) (s : PowerHintSession)
    (t now : Int) (ds : List WorkDuration) (hint : SessionHint) (mode : SessionMode)
    (enabled : Bool) (tids : List Int) :
    ((s.updateTargetWorkDuration cfg t).1 ≠ Status.Ok →
      (s.updateTargetWorkDuration cfg t).2 = s) ∧
    ((s.reportActualWorkDuration cfg ds now).1 ≠ Status.Ok →
      (s.reportActualWorkDuration cfg ds now).2 = s) ∧
    ((s.sendHint cfg hint now).1 ≠ Status.Ok → (s.sendHint cfg hint now).2 = s) ∧
    ((s.setMode mode enabled now).1 ≠ Status.Ok → (s.setMode mode enabled now).2 = s) ∧
    ((s.setThreads cfg tids).1 ≠ Status.Ok → (s.setThreads cfg tids).2.1 = s) ∧
    (s.pause.1 ≠ Status.Ok → s.pause.2 = s) ∧
    (s.resume.1 ≠ Status.Ok → s.resume.2 = s) := by
  refine ⟨?_, ?_, ?_, ?_, ?_, ?_, ?_⟩ <;>
    · intro h
      first
      | (unfold PowerHintSession.updateTargetWorkDuration at h ⊢
         split_ifs at h ⊢ <;> simp_all)
      | (unfold PowerHintSession.reportActualWorkDuration at h ⊢
         split_ifs at h ⊢ <;> simp_all)
      | (cases hint <;>
          unfold PowerHintSession.sendHint at h ⊢ <;>
          split_ifs at h ⊢ <;> simp_all)
      | (cases mode <;>
          unfold PowerHintSession.setMode at h ⊢ <;>
          split_ifs at h ⊢ <;> simp_all)
      | (unfold PowerHintSession.setThreads at h ⊢
         split_ifs at h ⊢ <;> simp_all)
      | (unfold PowerHintSession.pause at h ⊢
         split_ifs at h ⊢ <;> simp_all)
      | (unfold PowerHintSession.resume at h ⊢
         split_ifs at h ⊢ <;> simp_all)

/-- Witness for C10 at a concrete closed session: every operation rejects
the call and hands back the state unchanged. -/
theorem c10_error_is_atomic_witness :
    ((sClosed.updateTargetWorkDuration cfgUnit 5).2 = sClosed) ∧
    ((sClosed.reportActualWorkDuration cfgUnit [] 0).2 = sClosed) ∧
    ((sClosed.sendHint cfgUnit .CPU_LOAD_UP 0).2 = sClosed) ∧
    ((sClosed.setMode .POWER_EFFICIENCY true 0).2 = sClosed) ∧
    ((sClosed.setThreads cfgUnit [7]).2.1 = sClosed) ∧
    (sClosed.pause.2 = sClosed) ∧
    (sClosed.resume.2 = sClosed) :=
  ⟨(c10_error_is_atomic cfgUnit sClosed 5 0 [] .CPU_LOAD_UP .POWER_EFFICIENCY
      true [7]).1 (by decide),
   (c10_error_is_atomic cfgUnit sClosed 5 0 [] .CPU_LOAD_UP .POWER_EFFICIENCY
      true [7]).2.1 (by decide),
   (c10_error_is_atomic cfgUnit sClosed 5 0 [] .CPU_LOAD_UP .POWER_EFFICIENCY
      true [7]).2.2.1 (by decide),
   (c10_error_is_atomic cfgUnit sClosed 5 0 [] .CPU_LOAD_UP .POWER_EFFICIENCY
      true [7]).2.2.2.1 (by decide),
   (c10_error_is_atomic cfgUnit sClosed 5 0 [] .CPU_LOAD_UP .POWER_EFFICIENCY
      true [7]).2.2.2.2.1 (by decide),
   (c10_error_is_atomic cfgUnit sClosed 5 0 [] .CPU_LOAD_UP .POWER_EFFICIENCY
      true [7]).2.2.2.2.2.1 (by decide),
   (c10_error_is_atomic cfgUnit sClosed 5 0 [] .CPU_LOAD_UP .POWER_EFFICIENCY
      true [7]).2.2.2.2.2.2 (by decide)⟩

/-- C1 counterexample: on a closed session an empty report returns illegal
state, not illegal argument, because the closed guard precedes the
emptiness guard. -/
theorem c1_empty_report_counterexample :
    (sClosed.reportActualWorkDuration cfgUnit [] 0).1 = Status.IllegalState ∧
    (sClosed.reportActualWorkDuration cfgUnit [] 0).1 ≠ Status.IllegalArgument := by
  constructor <;> decide

/-- C1 amended: on every non-closed session whose stored target is nonzero
(active or paused alike, since the emptiness guard precedes the active
guard), an empty report fails with illegal argument; on a closed or
never-targeted session the earlier guards fail with illegal state
instead. -/
theorem c1_empty_report_illegal_argument (cfg : AdpfConfig) (s : PowerHintSession)
    (now : Int) (hopen : s.mSessionClosed = false)
    (htgt : s.mDescriptor.targetNs ≠ 0) :
    (s.reportActualWorkDuration cfg [] now).1 = Status.IllegalArgument := by
  simp [PowerHintSession.reportActualWorkDuration, hopen, htgt]

/-- Witness for the amended C1 at a concrete open targeted session. -/
theorem c1_empty_report_illegal_argument_witness :
    sOpen.mSessionClosed = false ∧ sOpen.mDescriptor.targetNs ≠ 0 ∧
    (sOpen.reportActualWorkDuration cfgUnit [] 0).1 = Status.IllegalArgument :=
  ⟨by decide, by decide, c1_empty_report_illegal_argument cfgUnit sOpen 0 (by decide) (by decide)⟩

/-- C3 counterexample: with a profile target-time factor of one half,
updateTargetWorkDuration with the valid duration 1 succeeds but stores the
truncated scaled target 0, so an immediate report on the still-open,
still-active session fails with the not-yet-targeted illegal state. -/
theorem c3_scaled_target_counterexample :
    (sOpen.updateTargetWorkDuration cfgHalf 1).1 = Status.Ok ∧
    (sOpen.updateTargetWorkDuration cfgHalf 1).2.mSessionClosed = false ∧
    (sOpen.updateTargetWorkDuration cfgHalf 1).2.mDescriptor.is_active = true ∧
    (sOpen.updateTargetWorkDuration cfgHalf 1).2.mDescriptor.targetNs = 0 ∧
    ((sOpen.updateTargetWorkDuration cfgHalf 1).2.reportActualWorkDuration cfgHalf
        [{ timeStampNanos := 0, durationNanos := 1 }] 5).1 = Status.IllegalState := by
  have h0 : truncQ ((1 : ℚ) * cfgHalf.mTargetTimeFactor) = 0 := by
    show truncQ ((1 : ℚ) * (1 / 2)) = 0
    norm_num [truncQ]
  have hupd : sOpen.updateTargetWorkDuration cfgHalf 1 =
      (Status.Ok, { sOpen with mDescriptor := { sOpen.mDescriptor with targetNs := 0 } }) := by
    simp only [PowerHintSession.updateTargetWorkDuration]
    rw [if_neg (by decide), if_neg (by decide)]
    rw [show (((1 : Int) : ℚ)) = (1 : ℚ) from by norm_num, h0]
  rw [hupd]
  refine ⟨rfl, rfl, rfl, rfl, ?_⟩
  simp [PowerHintSession.reportActualWorkDuration]

/-- C3 amended: on an open active session, updating the target to d and
immediately reporting d back stores a nonzero target and succeeds (so in
particular it does not fail with the not-yet-targeted illegal state),
provided the scaled and truncated stored target is at least one
100-microsecond unit - the region where the C++ PID arithmetic is
defined, since a stored target in the open interval from 0 to 100000 ns
passes the zero-target guard but reaches the division by the zero divisor
documented under C2. The divisor is proven nonzero as well. -/
theorem c3_update_then_report_ok (cfg : AdpfConfig) (s : PowerHintSession)
    (d ts now : Int)
    (hopen : s.mSessionClosed = false) (hact : s.mDescriptor.is_active = true)
    (hd : 0 < d) (hscale : 100000 ≤ truncQ ((d : ℚ) * cfg.mTargetTimeFactor)) :
    (s.updateTargetWorkDuration cfg d).1 = Status.Ok ∧
    (s.updateTargetWorkDuration cfg d).2.mDescriptor.targetNs ≠ 0 ∧
    ns_to_100us (s.updateTargetWorkDuration cfg d).2.mDescriptor.targetNs ≠ 0 ∧
    ((s.updateTargetWorkDuration cfg d).2.reportActualWorkDuration cfg
      [{ timeStampNanos := ts, durationNanos := d }] now).1 = Status.Ok := by
  have hupd : s.updateTargetWorkDuration cfg d =
      (Status.Ok, { s with mDescriptor := { s.mDescriptor with
        targetNs := truncQ ((d : ℚ) * cfg.mTargetTimeFactor) } }) := by
    simp only [PowerHintSession.updateTargetWorkDuration]
    rw [if_neg (by simp [hopen]), if_neg (by omega)]
  have hdt : 1 ≤ ns_to_100us (truncQ ((d : ℚ) * cfg.mTargetTimeFactor)) := by
    unfold ns_to_100us
    rw [Int.tdiv_eq_ediv (by omega) (by norm_num)]
    exact (Int.le_ediv_iff_mul_le (by norm_num)).mpr (by omega)
  rw [hupd]
  refine ⟨rfl, by simp; omega, by simpa using (by omega : ns_to_100us (truncQ ((d : ℚ) * cfg.mTargetTimeFactor)) ≠ 0), ?_⟩
  simp only [PowerHintSession.reportActualWorkDuration]
  rw [if_neg (by simp [hopen]),
    if_neg (show truncQ ((d : ℚ) * cfg.mTargetTimeFactor) ≠ 0 by omega),
    if_neg (by simp), if_neg (by simp [hact])]
  by_cases hp : cfg.mPidOn <;> simp [hp]

/-- Witness for the amended C3 at a unit target-time factor and a one
millisecond duration. -/
theorem c3_update_then_report_ok_witness :
    sOpen.mSessionClosed = false ∧ sOpen.mDescriptor.is_active = true ∧
    (0 : Int) < 1000000 ∧
    100000 ≤ truncQ (((1000000 : Int) : ℚ) * cfgUnit.mTargetTimeFactor) ∧
    ((sOpen.updateTargetWorkDuration cfgUnit 1000000).1 = Status.Ok ∧
      (sOpen.updateTargetWorkDuration cfgUnit 1000000).2.mDescriptor.targetNs ≠ 0 ∧
      ns_to_100us
        (sOpen.updateTargetWorkDuration cfgUnit 1000000).2.mDescriptor.targetNs ≠ 0 ∧
      ((sOpen.updateTargetWorkDuration cfgUnit 1000000).2.reportActualWorkDuration cfgUnit
        [{ timeStampNanos := 0, durationNanos := 1000000 }] 3).1 = Status.Ok) :=
  have hscale : 100000 ≤ truncQ (((1000000 : Int) : ℚ) * cfgUnit.mTargetTimeFactor) := by
    show 100000 ≤ truncQ (((1000000 : Int) : ℚ) * 1)
    norm_num [truncQ]
  ⟨by decide, by decide, by decide, hscale,
   c3_update_then_report_ok cfgUnit sOpen 1000000 0 3 (by decide) (by decide)
     (by decide) hscale⟩

/-- C2 refuted on the code: a stored target of 99999 ns is reachable
through a successful updateTargetWorkDuration call, passes every guard of
reportActualWorkDuration (the call reaches the PID arithmetic and returns
ok in this total model), and yet the divisor round_to_100us of the target
is zero, so the dOut expression of the C++ source divides by zero. -/
theorem c2_zero_divisor_reachable :
    (sOpen.updateTargetWorkDuration cfgUnit 99999).1 = Status.Ok ∧
    (sOpen.updateTargetWorkDuration cfgUnit 99999).2.mDescriptor.targetNs = 99999 ∧
    sTiny.mSessionClosed = false ∧ sTiny.mDescriptor.targetNs ≠ 0 ∧
    sTiny.mDescriptor.is_active = true ∧
    (sTiny.reportActualWorkDuration cfgUnit
        [{ timeStampNanos := 0, durationNanos := 99999 }] 1).1 = Status.Ok ∧
    ns_to_100us sTiny.mDescriptor.targetNs = 0 := by
  have hupd : sOpen.updateTargetWorkDuration cfgUnit 99999 =
      (Status.Ok, { sOpen with mDescriptor := { sOpen.mDescriptor with targetNs := 99999 } }) := by
    simp only [PowerHintSession.updateTargetWorkDuration]
    rw [if_neg (by decide), if_neg (by decide)]
    rw [show truncQ (((99999 : Int) : ℚ) * cfgUnit.mTargetTimeFactor) = 99999 from by
      show truncQ (((99999 : Int) : ℚ) * 1) = 99999
      norm_num [truncQ]]
  refine ⟨by rw [hupd], by rw [hupd], by decide, by decide, by decide, ?_, by decide⟩
  rw [report_ok_eq cfgUnit sTiny _ 1 (by decide) (by decide) (by decide) (by decide)
    (by decide)]

/-- C4 counterexample: a profile with all windows zero and unit gains whose
integral clamp range excludes zero (both bounds 3) and whose low uclamp
bound is 100 makes a successful single on-target report compute boost 3
and move the set point from 0 to 100. -/
theorem c4_pid_round_trip_counterexample :
    cfgSkew.mSamplingWindowP = 0 ∧ cfgSkew.mSamplingWindowI = 0 ∧
    cfgSkew.mSamplingWindowD = 0 ∧
    cfgSkew.mPidPo = 1 ∧ cfgSkew.mPidPu = 1 ∧ cfgSkew.mPidI = 1 ∧
    cfgSkew.mPidDo = 1 ∧ cfgSkew.mPidDu = 1 ∧
    sOpen.mDescriptor.integral_error = 0 ∧ sOpen.mDescriptor.previous_error = 0 ∧
    sOpen.mDescriptor.targetNs = 1000000 ∧ sOpen.mDescriptor.pidSetPoint = 0 ∧
    (convertWorkDurationToBoostByPid cfgSkew
        { sOpen.mDescriptor with update_count := sOpen.mDescriptor.update_count + 1 }
        [{ timeStampNanos := 0, durationNanos := 1000000 }]).1 = 3 ∧
    (sOpen.reportActualWorkDuration cfgSkew
        [{ timeStampNanos := 0, durationNanos := 1000000 }] 1).1 = Status.Ok ∧
    (sOpen.reportActualWorkDuration cfgSkew
        [{ timeStampNanos := 0, durationNanos := 1000000 }] 1).2.mDescriptor.pidSetPoint
      = 100 := by
  have hloop : pidLoop cfgSkew 1000000 0 0 0 0
      [{ timeStampNanos := 0, durationNanos := 1000000 }]
      { err_sum := 0, derivative_sum := 0, integral_error := 0, previous_error := 0 } =
      { err_sum := 0, derivative_sum := 0, integral_error := 3, previous_error := 0 } := by
    decide
  have hconv : (convertWorkDurationToBoostByPid cfgSkew
      { sOpen.mDescriptor with update_count := sOpen.mDescriptor.update_count + 1 }
      [{ timeStampNanos := 0, durationNanos := 1000000 }]).1 = 3 := by
    simp only [convertWorkDurationToBoostByPid, List.length_cons, List.length_nil,
      Nat.zero_add,
      show cfgSkew.mSamplingWindowP = 0 from rfl, show cfgSkew.mSamplingWindowI = 0 from rfl,
      show cfgSkew.mSamplingWindowD = 0 from rfl, windowStart_zero, min_self,
      List.drop_zero, sOpen, PowerHintSession.create, AppHintDesc.mkDesc]
    rw [hloop]
    norm_num [truncQ, show cfgSkew.mPidPu = 1 from rfl, show cfgSkew.mPidI = 1 from rfl,
      show cfgSkew.mPidDu = 1 from rfl]
  refine ⟨rfl, rfl, rfl, rfl, rfl, rfl, rfl, rfl, by decide, by decide, by decide,
    by decide, hconv, ?_, ?_⟩
  · rw [report_ok_eq cfgSkew sOpen _ 1 (by decide) (by decide) (by decide) (by decide)
      (by decide)]
  · rw [report_ok_eq cfgSkew sOpen _ 1 (by decide) (by decide) (by decide) (by decide)
      (by decide)]
    simp only [hconv]
    decide

/-- C4 amended: with all windows zero, unit gains, zero accumulators and a
single sample equal to the stored target, the boost is zero; and the set
point is unchanged provided additionally the integral clamp range contains
zero, the current set point lies between the profile uclamp bounds, and
the stored target is at least one 100-microsecond unit (so the C++
arithmetic is defined). -/
theorem c4_pid_round_trip_amended (cfg : AdpfConfig) (s : PowerHintSession) (ts now : Int)
    (hwp : cfg.mSamplingWindowP = 0) (hwi : cfg.mSamplingWindowI = 0)
    (hwd : cfg.mSamplingWindowD = 0)
    (_hpo : cfg.mPidPo = 1) (hpu : cfg.mPidPu = 1) (_hpi : cfg.mPidI = 1)
    (_hdo : cfg.mPidDo = 1) (hdu : cfg.mPidDu = 1) (hon : cfg.mPidOn = true)
    (hie : s.mDescriptor.integral_error = 0) (hpe : s.mDescriptor.previous_error = 0)
    (hlow : cfg.getPidILowDivI ≤ 0) (hhigh : 0 ≤ cfg.getPidIHighDivI)
    (hsplow : cfg.mUclampMinLow ≤ s.mDescriptor.pidSetPoint)
    (hsphigh : s.mDescriptor.pidSetPoint ≤ cfg.mUclampMinHigh)
    (hopen : s.mSessionClosed = false) (hact : s.mDescriptor.is_active = true)
    (htgt : 100000 ≤ s.mDescriptor.targetNs) :
    (convertWorkDurationToBoostByPid cfg
        { s.mDescriptor with update_count := s.mDescriptor.update_count + 1 }
        [{ timeStampNanos := ts, durationNanos := s.mDescriptor.targetNs }]).1 = 0 ∧
    (s.reportActualWorkDuration cfg
        [{ timeStampNanos := ts, durationNanos := s.mDescriptor.targetNs }] now).1
      = Status.Ok ∧
    (s.reportActualWorkDuration cfg
        [{ timeStampNanos := ts, durationNanos := s.mDescriptor.targetNs }]
        now).2.mDescriptor.pidSetPoint = s.mDescriptor.pidSetPoint := by
  have hconv : convertWorkDurationToBoostByPid cfg
      { s.mDescriptor with update_count := s.mDescriptor.update_count + 1 }
      [{ timeStampNanos := ts, durationNanos := s.mDescriptor.targetNs }] =
      (0, { { s.mDescriptor with update_count := s.mDescriptor.update_count + 1 } with
            integral_error := 0, previous_error := 0 }) :=
    convert_single_on_target cfg
      { s.mDescriptor with update_count := s.mDescriptor.update_count + 1 } ts
      hwp hwi hwd hpu hdu (by simpa using hie) (by simpa using hpe) hlow hhigh
  refine ⟨by rw [hconv], ?_, ?_⟩
  · rw [report_ok_eq cfg s _ now hopen (by omega) (by simp) hact hon]
  · rw [report_ok_eq cfg s _ now hopen (by omega) (by simp) hact hon]
    simp only [hconv, add_zero]
    simp [min_eq_right hsphigh, max_eq_right hsplow]

/-- Witness for the amended C4 at the unit profile: the boost is zero and
the set point stays at zero. -/
theorem c4_pid_round_trip_amended_witness :
    cfgUnit.mSamplingWindowP = 0 ∧ cfgUnit.mSamplingWindowI = 0 ∧
    cfgUnit.mSamplingWindowD = 0 ∧
    cfgUnit.mPidPo = 1 ∧ cfgUnit.mPidPu = 1 ∧ cfgUnit.mPidI = 1 ∧
    cfgUnit.mPidDo = 1 ∧ cfgUnit.mPidDu = 1 ∧ cfgUnit.mPidOn = true ∧
    sOpen.mDescriptor.integral_error = 0 ∧ sOpen.mDescriptor.previous_error = 0 ∧
    cfgUnit.getPidILowDivI ≤ 0 ∧ 0 ≤ cfgUnit.getPidIHighDivI ∧
    cfgUnit.mUclampMinLow ≤ sOpen.mDescriptor.pidSetPoint ∧
    sOpen.mDescriptor.pidSetPoint ≤ cfgUnit.mUclampMinHigh ∧
    sOpen.mSessionClosed = false ∧ sOpen.mDescriptor.is_active = true ∧
    100000 ≤ sOpen.mDescriptor.targetNs ∧
    ((convertWorkDurationToBoostByPid cfgUnit
        { sOpen.mDescriptor with update_count := sOpen.mDescriptor.update_count + 1 }
        [{ timeStampNanos := 0, durationNanos := sOpen.mDescriptor.targetNs }]).1 = 0 ∧
      (sOpen.reportActualWorkDuration cfgUnit
          [{ timeStampNanos := 0, durationNanos := sOpen.mDescriptor.targetNs }] 9).1
        = Status.Ok ∧
      (sOpen.reportActualWorkDuration cfgUnit
          [{ timeStampNanos := 0, durationNanos := sOpen.mDescriptor.targetNs }]
          9).2.mDescriptor.pidSetPoint = sOpen.mDescriptor.pidSetPoint) :=
  ⟨rfl, rfl, rfl, rfl, rfl, rfl, rfl, rfl, rfl, rfl, rfl, by decide, by decide,
   by decide, by decide, rfl, rfl, by decide,
   c4_pid_round_trip_amended cfgUnit sOpen 0 9 rfl rfl rfl rfl rfl rfl rfl rfl rfl
     rfl rfl (by decide) (by decide) (by decide) (by decide) rfl rfl (by decide)⟩

/-- C8: after every successful report with PID control on, the integral
accumulator in the descriptor lies between the profile integral clamp
bounds, provided the low bound does not exceed the high bound: the clamp
is re-established after each per-sample accumulation and the last sample
always lies in the integral window. -/
theorem c8_integral_error_clamped (cfg : AdpfConfig) (s : PowerHintSession)
    (ds : List WorkDuration) (now : Int)
    (hlh : cfg.getPidILowDivI ≤ cfg.getPidIHighDivI)
    (hon : cfg.mPidOn = true)
    (hok : (s.reportActualWorkDuration cfg ds now).1 = Status.Ok) :
    cfg.getPidILowDivI ≤
      (s.reportActualWorkDuration cfg ds now).2.mDescriptor.integral_error ∧
    (s.reportActualWorkDuration cfg ds now).2.mDescriptor.integral_error ≤
      cfg.getPidIHighDivI := by
  have h1 : s.mSessionClosed = false := by
    by_contra h
    have h' : s.mSessionClosed = true := by simpa using h
    simp [PowerHintSession.reportActualWorkDuration, h'] at hok
  have h2 : s.mDescriptor.targetNs ≠ 0 := by
    intro h
    simp [PowerHintSession.reportActualWorkDuration, h1, h] at hok
  have h3 : ds.isEmpty = false := by
    by_contra h
    have h' : ds.isEmpty = true := by simpa using h
    simp [PowerHintSession.reportActualWorkDuration, h1, h2, h'] at hok
  have h4 : s.mDescriptor.is_active = true := by
    by_contra h
    have h' : s.mDescriptor.is_active = false := by simpa using h
    simp [PowerHintSession.reportActualWorkDuration, h1, h2, h3, h'] at hok
  rw [report_ok_eq cfg s ds now h1 h2 h3 h4 hon]
  simpa using convert_integral_clamped cfg
    { s.mDescriptor with update_count := s.mDescriptor.update_count + 1 } ds
    (by simpa [List.isEmpty_iff] using h3) hlh

/-- Witness for C8 at a concrete session reporting one overlong sample. -/
theorem c8_integral_error_clamped_witness :
    cfgUnit.getPidILowDivI ≤ cfgUnit.getPidIHighDivI ∧ cfgUnit.mPidOn = true ∧
    (sOpen.reportActualWorkDuration cfgUnit
        [{ timeStampNanos := 0, durationNanos := 3000000 }] 1).1 = Status.Ok ∧
    (cfgUnit.getPidILowDivI ≤
        (sOpen.reportActualWorkDuration cfgUnit
          [{ timeStampNanos := 0, durationNanos := 3000000 }] 1).2.mDescriptor.integral_error ∧
      (sOpen.reportActualWorkDuration cfgUnit
          [{ timeStampNanos := 0, durationNanos := 3000000 }] 1).2.mDescriptor.integral_error ≤
        cfgUnit.getPidIHighDivI) :=
  have hok : (sOpen.reportActualWorkDuration cfgUnit
      [{ timeStampNanos := 0, durationNanos := 3000000 }] 1).1 = Status.Ok := by
    rw [report_ok_eq cfgUnit sOpen _ 1 (by decide) (by decide) (by decide) (by decide)
      (by decide)]
  ⟨by decide, by decide, hok,
   c8_integral_error_clamped cfgUnit sOpen
     [{ timeStampNanos := 0, durationNanos := 3000000 }] 1 (by decide) (by decide) hok⟩

end Adpf
